import Mathlib

/-!
Shallow embedding of `src/index.tsx` (virtual try-on front-end).

The program is event-driven browser glue: two upload slots, a generate
button that performs one call to an external image-editing service, and a
result/error presenter.  We model the mutable page as a record `UIState`
(the two session slots plus every DOM property the handlers touch), and
each event handler as a pure state-transition function.  Asynchronous
outcomes that the environment decides (whether a file read succeeds, what
the service returns or whether it throws) are passed to the handlers as
explicit parameters.
-/

namespace VirtualTryOn

/-- `{ mimeType: string; data: string }` — the payload stored in the two
session slots (`personFileData` / `outfitFileData`, index.tsx lines 19-20). -/
structure InlineData where
  mimeType : String
  data : String
deriving DecidableEq, Repr

/-- One element of a candidate content's `parts` array: in the `@google/genai`
response shape each part may carry `inlineData` and/or `text`. -/
structure Part where
  inlineData : Option InlineData
  text : Option String
deriving DecidableEq, Repr

/-- `candidate.content` — holds the `parts` array. -/
structure Content where
  parts : List Part
deriving DecidableEq, Repr

/-- One response candidate; `content` is optional in the client library,
matching the `?.` access `candidates?.[0]?.content?` at line 140. -/
structure Candidate where
  content : Option Content
deriving DecidableEq, Repr

/-- The service response: its list of candidates (absent and empty are both
modelled as the empty list, which the `?.[0]` access treats identically). -/
structure GenResponse where
  candidates : List Candidate
deriving DecidableEq, Repr

/-- The request assembled at lines 126-138: the model name and the `parts`
array sent to `ai.models.generateContent`. -/
structure GenRequest where
  model : String
  parts : List Part
deriving DecidableEq, Repr

/-- A local file as the handlers see it: its declared MIME `type` and the
data URL that `FileReader.readAsDataURL` produces for its contents. -/
structure JsFile where
  type : String
  dataUrl : String
deriving DecidableEq, Repr

/-- The slot identifier `'person' | 'outfit'` threaded through the upload
handlers. -/
inductive SlotKind where
  | person
  | outfit
deriving DecidableEq, Repr

/-- The mutable page state: the two session slots (lines 19-20) and every
DOM property the event handlers read or write. -/
structure UIState where
  personFileData : Option InlineData
  outfitFileData : Option InlineData
  generateButtonDisabled : Bool
  errorText : String
  errorVisible : Bool
  loaderVisible : Bool
  resultsSectionVisible : Bool
  resultImageSrc : String
  resultImageVisible : Bool
  downloadHref : String
  downloadVisible : Bool
  personPreviewSrc : String
  personPreviewVisible : Bool
  outfitPreviewSrc : String
  outfitPreviewVisible : Bool
  personDropZoneHasImage : Bool
  outfitDropZoneHasImage : Bool
deriving DecidableEq, Repr

/-- Outcome of the awaited `ai.models.generateContent` call: either a
resolved response or a thrown exception carrying some error value. -/
inductive CallOutcome where
  | ok (resp : GenResponse)
  | exn (err : String)
deriving DecidableEq, Repr

/-- `fileToGenerativePart` (lines 25-37): reads the file as a data URL,
takes the substring after the first comma as the base64 content, and pairs
it with the file's declared MIME type under an `inlineData` field. -/
def fileToGenerativePart (file : JsFile) : Part :=
  { inlineData := some
      { mimeType := file.type
        data := (file.dataUrl.splitOn ",").getD 1 "" }
    text := none }

/-- `updateGenerateButtonState` (lines 39-41):
`generateButton.disabled = !(personFileData && outfitFileData)`. -/
def updateGenerateButtonState (s : UIState) : UIState :=
  { s with generateButtonDisabled :=
      !(s.personFileData.isSome && s.outfitFileData.isSome) }

/-- `displayError` (lines 43-47): sets the error text, shows the error
container and hides the loader. -/
def displayError (message : String) (s : UIState) : UIState :=
  { s with errorText := message, errorVisible := true, loaderVisible := false }

/-- `handleFileUpload` (lines 50-71).  A `none` file returns immediately.
Otherwise the `FileReader.onload` callback only fires when the read
succeeds (`readOk`); it then sets the preview from the data URL, stores the
encoded part in the slot for `kind`, and refreshes the button state. -/
def handleFileUpload (file : Option JsFile) (readOk : Bool) (kind : SlotKind)
    (s : UIState) : UIState :=
  match file with
  | none => s
  | some f =>
    if readOk then
      let s1 :=
        match kind with
        | .person =>
          { s with personPreviewSrc := f.dataUrl, personPreviewVisible := true
                   personDropZoneHasImage := true }
        | .outfit =>
          { s with outfitPreviewSrc := f.dataUrl, outfitPreviewVisible := true
                   outfitDropZoneHasImage := true }
      let part := fileToGenerativePart f
      let s2 :=
        match kind with
        | .person => { s1 with personFileData := part.inlineData }
        | .outfit => { s1 with outfitFileData := part.inlineData }
      updateGenerateButtonState s2
    else s

/-- The `'change'` listeners (lines 73-74):
`handleFileUpload(input.files?.[0] ?? null, kind)`. -/
def changeHandler (files : Option (List JsFile)) (readOk : Bool)
    (kind : SlotKind) (s : UIState) : UIState :=
  handleFileUpload
    (match files with
     | none => none
     | some fs => fs.head?)
    readOk kind s

/-- The `'drop'` listener (lines 87-95): when `e.dataTransfer?.files` is
present and non-empty, forwards `files[0]` to `handleFileUpload`. -/
def dropHandler (files : Option (List JsFile)) (readOk : Bool)
    (kind : SlotKind) (s : UIState) : UIState :=
  match files with
  | none => s
  | some fs =>
    if fs.length > 0 then handleFileUpload fs.head? readOk kind s else s

/-- The message shown when generation is triggered with a missing slot
(line 104). -/
def missingInputMessage : String :=
  "Please upload both a person and an outfit image."

/-- The fallback shown when the response carries neither image nor usable
text (line 152). -/
def noImageFallbackMessage : String :=
  "Sorry, I couldn\x27t generate an image. Please try again with different images."

/-- The message shown from the `catch` block (line 158). -/
def transportFailureMessage : String :=
  "An error occurred while generating the image. Please check the console for details."

/-- The fixed instruction string (lines 117-124, a template literal kept
verbatim including its leading/trailing indentation). -/
def promptText : String :=
  "\n      You are an expert virtual stylist. Your task is to perform a realistic virtual try-on.\n      1.  **Preserve Identity:** The person\x27s face, hair, and skin tone from the first image must remain completely unchanged.\n      2.  **Replace Clothing:** Replace the clothing on the person in the first image with the complete outfit from the second image.\n      3.  **Realistic Fit & Shading:** The new outfit must fit the person\x27s body realistically. Pay close attention to proportions, draping, and how the fabric would naturally fall. Add natural shadows and highlights to the new outfit to make it look like it\x27s part of the scene\x27s lighting.\n      4.  **New Background:** Generate a new, suitable background that complements the style of the new outfit. For example, a formal dress might get a backdrop of an elegant event, while a casual outfit might get a city street scene.\n      5.  **Output:** Return only the final, edited image. Do not return any text.\n    "

/-- The single request issued per click (lines 126-138): model name and
the three parts — the two slot payloads and the fixed prompt. -/
def buildRequest (person outfit : InlineData) : GenRequest :=
  { model := "gemini-2.5-flash-image-preview"
    parts := [ { inlineData := some person, text := none }
             , { inlineData := some outfit, text := none }
             , { inlineData := none, text := some promptText } ] }

/-- The UI reset at lines 108-114: hide the previous error, reveal the
results section, hide image and download, show the loader, disable the
trigger. -/
def resetUIForGeneration (s : UIState) : UIState :=
  { s with errorVisible := false
           resultsSectionVisible := true
           resultImageVisible := false
           downloadVisible := false
           loaderVisible := true
           generateButtonDisabled := true }

/-- The `finally` block (lines 159-162): hide the loader and re-enable the
trigger. -/
def finalizeGeneration (s : UIState) : UIState :=
  { s with loaderVisible := false, generateButtonDisabled := false }

/-- `response.candidates?.[0]?.content?.parts` (lines 140 and 151): the
parts of the first candidate, or nothing when any link is absent. -/
def firstCandidateParts (resp : GenResponse) : List Part :=
  match resp.candidates.head? with
  | some c =>
    match c.content with
    | some content => content.parts
    | none => []
  | none => []

/-- Lines 151-152: find the first part whose `text` is truthy (present and
non-empty, JS truthiness), and take `textPart?.text || fallback`. -/
def refusalMessage (parts : List Part) : String :=
  let textPart := parts.find? fun part =>
    match part.text with
    | some t => t != ""
    | none => false
  match textPart.bind (fun part => part.text) with
  | some t => if t = "" then noImageFallbackMessage else t
  | none => noImageFallbackMessage

/-- Lines 140-154: find the first part of the first candidate with a truthy
`inlineData`; when found, set the result image and download target to
`data:MIME;base64,DATA` and reveal both; otherwise display the refusal
message. -/
def resolveResponse (resp : GenResponse) (s : UIState) : UIState :=
  let imagePart := (firstCandidateParts resp).find? fun part =>
    part.inlineData.isSome
  match imagePart.bind (fun part => part.inlineData) with
  | some idata =>
    let imageUrl := "data:" ++ idata.mimeType ++ ";base64," ++ idata.data
    { s with resultImageSrc := imageUrl
             downloadHref := imageUrl
             resultImageVisible := true
             downloadVisible := true }
  | none => displayError (refusalMessage (firstCandidateParts resp)) s

/-- What one click of the generate button produces: the final page state,
the list of requests issued to the external service, and the values passed
to `console.error`. -/
structure ClickResult where
  state : UIState
  requests : List GenRequest
  consoleErrors : List String
deriving DecidableEq, Repr

/-- The generate-button `'click'` listener (lines 102-163).  A missing slot
aborts with the missing-input message and no request.  Otherwise the UI is
reset, exactly one request is issued, the outcome is resolved (the thrown
error is logged and replaced by the transport-failure message), and the
`finally` block always runs last. -/
def generateClick (outcome : CallOutcome) (s : UIState) : ClickResult :=
  match s.personFileData, s.outfitFileData with
  | some person, some outfit =>
    let s1 := resetUIForGeneration s
    let req := buildRequest person outfit
    (match outcome with
     | .ok resp =>
       { state := finalizeGeneration (resolveResponse resp s1)
         requests := [req]
         consoleErrors := [] }
     | .exn err =>
       { state := finalizeGeneration (displayError transportFailureMessage s1)
         requests := [req]
         consoleErrors := [err] })
  | _, _ =>
    { state := displayError missingInputMessage s
      requests := []
      consoleErrors := [] }

/-- Spec-side reading of the resolution policy for text: the first
non-empty text payload among the parts, if any.  Written from the spec
words, to be compared with `refusalMessage`. -/
def firstNonEmptyText : List Part → Option String
  | [] => none
  | p :: rest =>
    match p.text with
    | some t => if t = "" then firstNonEmptyText rest else some t
    | none => firstNonEmptyText rest

/-- A blank page state used by the concrete witnesses. -/
def emptyState : UIState :=
  { personFileData := none
    outfitFileData := none
    generateButtonDisabled := true
    errorText := ""
    errorVisible := false
    loaderVisible := false
    resultsSectionVisible := false
    resultImageSrc := ""
    resultImageVisible := false
    downloadHref := ""
    downloadVisible := false
    personPreviewSrc := ""
    personPreviewVisible := false
    outfitPreviewSrc := ""
    outfitPreviewVisible := false
    personDropZoneHasImage := false
    outfitDropZoneHasImage := false }

/-- A concrete person payload for witnesses. -/
def samplePerson : InlineData := { mimeType := "image/png", data := "ABC" }

/-- A concrete outfit payload for witnesses. -/
def sampleOutfit : InlineData := { mimeType := "image/jpeg", data := "DEF" }

/-- A page state with both slots populated. -/
def readyState : UIState :=
  { emptyState with personFileData := some samplePerson
                    outfitFileData := some sampleOutfit }

/-- A concrete file for upload witnesses. -/
def sampleFile : JsFile :=
  { type := "image/png", dataUrl := "data:image/png;base64,ABC" }

/-- A response whose first candidate holds a text part followed by an image
part, exercising the image-wins resolution policy. -/
def imageAndTextResponse : GenResponse :=
  { candidates := [
      { content := some
          { parts := [ { inlineData := none, text := some "Here you go" }
                     , { inlineData := some { mimeType := "image/png", data := "ABC" }
                       , text := none } ] } } ] }

/-- A response whose first candidate holds a single text part whose text is
the empty string and no image part. -/
def emptyTextResponse : GenResponse :=
  { candidates := [
      { content := some
          { parts := [ { inlineData := none, text := some "" } ] } } ] }

/-- A response whose first candidate holds no parts at all. -/
def noPayloadResponse : GenResponse :=
  { candidates := [ { content := some { parts := [] } } ] }

/-- A response whose first candidate holds a single refusal text part. -/
def refusalTextResponse : GenResponse :=
  { candidates := [
      { content := some
          { parts := [ { inlineData := none, text := some "Cannot process" } ] } } ] }

/-- The spec-side text resolution agrees with the code path of lines
151-152: the message is the first non-empty text, else the fallback. -/
theorem refusalMessage_eq_firstNonEmptyText (l : List Part) :
    refusalMessage l = (firstNonEmptyText l).getD noImageFallbackMessage := by
  induction l with
  | nil => simp [refusalMessage, firstNonEmptyText]
  | cons p rest ih =>
    obtain ⟨pinline, ptext⟩ := p
    cases ptext with
    | none =>
      simpa [refusalMessage, firstNonEmptyText, List.find?] using ih
    | some t =>
      by_cases h : t = ""
      · subst h
        simpa [refusalMessage, firstNonEmptyText, List.find?] using ih
      · have hb : (t != "") = true := by simp [h]
        simp [refusalMessage, firstNonEmptyText, List.find?, hb, h]

/-- C1: the generate trigger is enabled iff both slots hold a payload:
`updateGenerateButtonState` establishes `disabled = !(person && outfit)`
(so any single-slot state leaves it disabled), and every upload completion
re-establishes that invariant, since `handleFileUpload` either leaves the
state untouched or ends in `updateGenerateButtonState`. -/
theorem generate_enabled_iff_both_slots (s : UIState)
    (file : Option JsFile) (readOk : Bool) (kind : SlotKind)
    (hinv : s.generateButtonDisabled
      = !(s.personFileData.isSome && s.outfitFileData.isSome)) :
    ((updateGenerateButtonState s).generateButtonDisabled = false
        ↔ s.personFileData.isSome ∧ s.outfitFileData.isSome) ∧
    (handleFileUpload file readOk kind s).generateButtonDisabled
      = !((handleFileUpload file readOk kind s).personFileData.isSome
          && (handleFileUpload file readOk kind s).outfitFileData.isSome) := by
  constructor
  · simp [updateGenerateButtonState]
  · match file with
    | none => simpa [handleFileUpload] using hinv
    | some f =>
      cases readOk with
      | false => simpa [handleFileUpload] using hinv
      | true => cases kind <;> simp [handleFileUpload, updateGenerateButtonState]

/-- Witness for C1 at the blank page state and a concrete person upload. -/
theorem generate_enabled_iff_both_slots_witness :
    ((updateGenerateButtonState emptyState).generateButtonDisabled = false
        ↔ emptyState.personFileData.isSome ∧ emptyState.outfitFileData.isSome) ∧
    (handleFileUpload (some sampleFile) true .person emptyState).generateButtonDisabled
      = !((handleFileUpload (some sampleFile) true .person emptyState).personFileData.isSome
          && (handleFileUpload (some sampleFile) true .person emptyState).outfitFileData.isSome) :=
  generate_enabled_iff_both_slots emptyState (some sampleFile) true .person (by decide)

/-- C2: clicking generate with a missing slot issues no request, shows the
missing-input message, and leaves both session slots unchanged. -/
theorem missing_slot_aborts (outcome : CallOutcome) (s : UIState)
    (h : s.personFileData = none ∨ s.outfitFileData = none) :
    (generateClick outcome s).requests = [] ∧
    (generateClick outcome s).state.errorText = missingInputMessage ∧
    (generateClick outcome s).state.errorVisible = true ∧
    (generateClick outcome s).state.personFileData = s.personFileData ∧
    (generateClick outcome s).state.outfitFileData = s.outfitFileData := by
  rcases h with h | h
  · simp [generateClick, h, displayError]
  · cases hp : s.personFileData with
    | none => simp [generateClick, hp, displayError]
    | some p => simp [generateClick, hp, h, displayError]

/-- Witness for C2: only the person slot is populated. -/
theorem missing_slot_aborts_witness :
    (generateClick (.exn "boom") { emptyState with personFileData := some samplePerson }).requests = [] ∧
    (generateClick (.exn "boom") { emptyState with personFileData := some samplePerson }).state.errorText = missingInputMessage ∧
    (generateClick (.exn "boom") { emptyState with personFileData := some samplePerson }).state.errorVisible = true ∧
    (generateClick (.exn "boom") { emptyState with personFileData := some samplePerson }).state.personFileData
      = ({ emptyState with personFileData := some samplePerson } : UIState).personFileData ∧
    (generateClick (.exn "boom") { emptyState with personFileData := some samplePerson }).state.outfitFileData
      = ({ emptyState with personFileData := some samplePerson } : UIState).outfitFileData :=
  missing_slot_aborts (.exn "boom") _ (Or.inr rfl)

/-- C3: when the first candidate contains an image payload (the first such
part, whatever text parts accompany it), the result image and download
target are set to exactly `data:MIME;base64,DATA` and both are revealed. -/
theorem image_payload_is_the_result (s : UIState) (resp : GenResponse)
    (person outfit idata : InlineData) (p : Part)
    (hp : s.personFileData = some person) (ho : s.outfitFileData = some outfit)
    (hfind : (firstCandidateParts resp).find? (fun part => part.inlineData.isSome) = some p)
    (hid : p.inlineData = some idata) :
    (generateClick (.ok resp) s).state.resultImageSrc
        = "data:" ++ idata.mimeType ++ ";base64," ++ idata.data ∧
    (generateClick (.ok resp) s).state.downloadHref
        = "data:" ++ idata.mimeType ++ ";base64," ++ idata.data ∧
    (generateClick (.ok resp) s).state.resultImageVisible = true ∧
    (generateClick (.ok resp) s).state.downloadVisible = true := by
  simp [generateClick, hp, ho, resolveResponse, hfind, hid, finalizeGeneration,
        resetUIForGeneration]

/-- Witness for C3 at the spec's example: an `image/png` payload `ABC`
(preceded by a text part that must be ignored) yields the data URI
`data:image/png;base64,ABC`. -/
theorem image_payload_is_the_result_witness :
    (generateClick (.ok imageAndTextResponse) readyState).state.resultImageSrc
        = "data:image/png;base64,ABC" ∧
    (generateClick (.ok imageAndTextResponse) readyState).state.downloadHref
        = "data:image/png;base64,ABC" ∧
    (generateClick (.ok imageAndTextResponse) readyState).state.resultImageVisible = true ∧
    (generateClick (.ok imageAndTextResponse) readyState).state.downloadVisible = true :=
  image_payload_is_the_result readyState imageAndTextResponse samplePerson sampleOutfit
    { mimeType := "image/png", data := "ABC" }
    { inlineData := some { mimeType := "image/png", data := "ABC" }, text := none }
    rfl rfl rfl rfl

/-- C4 counterexample: the first candidate carries no image payload and a
text payload whose text is the empty string, yet the displayed message is
the generic fallback, not that (empty) text — JS truthiness skips empty
text, so the claim as stated fails. -/
theorem empty_text_payload_counterexample :
    (∀ part ∈ firstCandidateParts emptyTextResponse, part.inlineData = none) ∧
    (firstCandidateParts emptyTextResponse).find? (fun part => part.text.isSome)
        = some { inlineData := none, text := some "" } ∧
    (generateClick (.ok emptyTextResponse) readyState).state.errorText
        = noImageFallbackMessage ∧
    noImageFallbackMessage ≠ "" := by
  refine ⟨by decide, rfl, rfl, by decide⟩

/-- C4 (amended): when the first candidate contains no image payload, the
displayed message is the first non-empty text payload when one exists
(empty text payloads are skipped), otherwise the fixed generic fallback;
the result image and download affordance stay hidden. -/
theorem no_image_shows_text_or_fallback (s : UIState) (resp : GenResponse)
    (person outfit : InlineData)
    (hp : s.personFileData = some person) (ho : s.outfitFileData = some outfit)
    (hnoimg : ∀ part ∈ firstCandidateParts resp, part.inlineData = none) :
    (generateClick (.ok resp) s).state.errorText
        = (firstNonEmptyText (firstCandidateParts resp)).getD noImageFallbackMessage ∧
    (generateClick (.ok resp) s).state.errorVisible = true ∧
    (generateClick (.ok resp) s).state.resultImageVisible = false ∧
    (generateClick (.ok resp) s).state.downloadVisible = false := by
  have hfind : (firstCandidateParts resp).find? (fun part => part.inlineData.isSome)
      = none := by
    rw [List.find?_eq_none]
    intro x hx
    simp [hnoimg x hx]
  simp [generateClick, hp, ho, resolveResponse, hfind, finalizeGeneration,
        resetUIForGeneration, displayError, refusalMessage_eq_firstNonEmptyText]

/-- Witness for the amended C4 at the spec's example: a lone text payload
"Cannot process" becomes the displayed message, image and download hidden. -/
theorem no_image_shows_text_or_fallback_witness :
    (generateClick (.ok refusalTextResponse) readyState).state.errorText
        = (firstNonEmptyText (firstCandidateParts refusalTextResponse)).getD noImageFallbackMessage ∧
    (generateClick (.ok refusalTextResponse) readyState).state.errorVisible = true ∧
    (generateClick (.ok refusalTextResponse) readyState).state.resultImageVisible = false ∧
    (generateClick (.ok refusalTextResponse) readyState).state.downloadVisible = false :=
  no_image_shows_text_or_fallback readyState refusalTextResponse samplePerson sampleOutfit
    rfl rfl (by decide)

/-- C5 counterexample: the message shown from the catch block differs from
the message shown when a response carries neither image nor text, so "the
same generic failure message" fails on the code. -/
theorem exception_message_differs_counterexample :
    (generateClick (.exn "network error") readyState).state.errorText
        = transportFailureMessage ∧
    (generateClick (.ok noPayloadResponse) readyState).state.errorText
        = noImageFallbackMessage ∧
    transportFailureMessage ≠ noImageFallbackMessage := by
  refine ⟨rfl, rfl, by decide⟩

/-- C5 (amended): every thrown exception is caught and the user is shown a
fixed generic failure message — a different fixed message from the
no-payload fallback; the thrown error goes only to the console log and is
never part of the user-visible message (which is constant in `err`). -/
theorem exception_caught_shows_fixed_message (s : UIState)
    (person outfit : InlineData) (err : String)
    (hp : s.personFileData = some person) (ho : s.outfitFileData = some outfit) :
    (generateClick (.exn err) s).state.errorText = transportFailureMessage ∧
    (generateClick (.exn err) s).state.errorVisible = true ∧
    (generateClick (.exn err) s).consoleErrors = [err] ∧
    transportFailureMessage ≠ noImageFallbackMessage := by
  refine ⟨?_, ?_, ?_, by decide⟩ <;>
    simp [generateClick, hp, ho, displayError, finalizeGeneration, resetUIForGeneration]

/-- Witness for the amended C5 at a concrete thrown error. -/
theorem exception_caught_shows_fixed_message_witness :
    (generateClick (.exn "fetch failed") readyState).state.errorText = transportFailureMessage ∧
    (generateClick (.exn "fetch failed") readyState).state.errorVisible = true ∧
    (generateClick (.exn "fetch failed") readyState).consoleErrors = ["fetch failed"] ∧
    transportFailureMessage ≠ noImageFallbackMessage :=
  exception_caught_shows_fixed_message readyState samplePerson sampleOutfit "fetch failed" rfl rfl

/-- C6: once the both-slots precondition holds, whatever the outcome of the
call (any response or any thrown error), the finally block leaves the busy
indicator hidden and the trigger re-enabled. -/
theorem finalization_always_runs (outcome : CallOutcome) (s : UIState)
    (person outfit : InlineData)
    (hp : s.personFileData = some person) (ho : s.outfitFileData = some outfit) :
    (generateClick outcome s).state.loaderVisible = false ∧
    (generateClick outcome s).state.generateButtonDisabled = false := by
  cases outcome <;> simp [generateClick, hp, ho, finalizeGeneration]

/-- Witness for C6 at a thrown error. -/
theorem finalization_always_runs_witness :
    (generateClick (.exn "boom again") readyState).state.loaderVisible = false ∧
    (generateClick (.exn "boom again") readyState).state.generateButtonDisabled = false :=
  finalization_always_runs (.exn "boom again") readyState samplePerson sampleOutfit rfl rfl

/-- C7: a completed upload replaces exactly its own slot with the newly
encoded payload, in every prior state, and leaves the other slot as it
was. -/
theorem upload_overwrites_only_its_slot (f : JsFile) (s : UIState) :
    ((handleFileUpload (some f) true .person s).personFileData
        = (fileToGenerativePart f).inlineData ∧
     (handleFileUpload (some f) true .person s).outfitFileData = s.outfitFileData) ∧
    ((handleFileUpload (some f) true .outfit s).outfitFileData
        = (fileToGenerativePart f).inlineData ∧
     (handleFileUpload (some f) true .outfit s).personFileData = s.personFileData) := by
  simp [handleFileUpload, updateGenerateButtonState]

/-- C8: with both slots populated the click issues exactly one request —
the person payload, the outfit payload and the fixed prompt, in that
order, to the fixed model — after the UI reset has cleared the previous
error, shown the busy indicator and disabled the trigger. -/
theorem click_issues_exactly_one_request (outcome : CallOutcome) (s : UIState)
    (person outfit : InlineData)
    (hp : s.personFileData = some person) (ho : s.outfitFileData = some outfit) :
    (generateClick outcome s).requests
        = [ { model := "gemini-2.5-flash-image-preview"
            , parts := [ { inlineData := some person, text := none }
                       , { inlineData := some outfit, text := none }
                       , { inlineData := none, text := some promptText } ] } ] ∧
    (resetUIForGeneration s).errorVisible = false ∧
    (resetUIForGeneration s).loaderVisible = true ∧
    (resetUIForGeneration s).generateButtonDisabled = true := by
  cases outcome <;> simp [generateClick, hp, ho, buildRequest, resetUIForGeneration]

/-- Witness for C8 at the ready state with a concrete response. -/
theorem click_issues_exactly_one_request_witness :
    (generateClick (.ok noPayloadResponse) readyState).requests
        = [ { model := "gemini-2.5-flash-image-preview"
            , parts := [ { inlineData := some samplePerson, text := none }
                       , { inlineData := some sampleOutfit, text := none }
                       , { inlineData := none, text := some promptText } ] } ] ∧
    (resetUIForGeneration readyState).errorVisible = false ∧
    (resetUIForGeneration readyState).loaderVisible = true ∧
    (resetUIForGeneration readyState).generateButtonDisabled = true :=
  click_issues_exactly_one_request (.ok noPayloadResponse) readyState
    samplePerson sampleOutfit rfl rfl

/-- C9: when the file read never completes, the onload callback never
fires: the whole page state — slots, previews, error display — is exactly
as before; the failure is silent. -/
theorem read_failure_is_silent (f : JsFile) (kind : SlotKind) (s : UIState) :
    handleFileUpload (some f) false kind s = s := by
  simp [handleFileUpload]

/-- C10: an upload event delivering no file is a complete no-op through
both the change listener and the drop listener, and a drop delivering
several files encodes only the first — the handler run is identical to one
receiving just that file, whatever the rest are. -/
theorem no_file_is_noop_and_drop_uses_first (readOk : Bool) (kind : SlotKind)
    (s : UIState) (f : JsFile) (rest : List JsFile) :
    handleFileUpload none readOk kind s = s ∧
    changeHandler none readOk kind s = s ∧
    changeHandler (some []) readOk kind s = s ∧
    dropHandler none readOk kind s = s ∧
    dropHandler (some []) readOk kind s = s ∧
    dropHandler (some (f :: rest)) readOk kind s
      = handleFileUpload (some f) readOk kind s := by
  refine ⟨rfl, rfl, rfl, rfl, rfl, ?_⟩
  simp [dropHandler]

end VirtualTryOn
